import Mathlib

/-!
# ocecho: OpenCensus trace and stats middleware for echo

A shallow embedding of `stats.go`, `trace.go` and `ocecho.go`.

Go `int`, `int32` and `int64` values are modelled by `Int`; the functions
embedded here perform no arithmetic on them that could overflow.  Calls into
the tracing and stats libraries are modelled as entries of an event log, in
call order.
-/

namespace Ocecho

/-! ## Constants of `go.opencensus.io/trace` and `net/http` -/

/-- Canonical code `trace.StatusCodeOK` (the zero value of `int32`). -/
def StatusCodeOK : Int := 0
/-- Canonical code `trace.StatusCodeCancelled`. -/
def StatusCodeCancelled : Int := 1
/-- Canonical code `trace.StatusCodeUnknown`. -/
def StatusCodeUnknown : Int := 2
/-- Canonical code `trace.StatusCodeInvalidArgument`. -/
def StatusCodeInvalidArgument : Int := 3
/-- Canonical code `trace.StatusCodeDeadlineExceeded`. -/
def StatusCodeDeadlineExceeded : Int := 4
/-- Canonical code `trace.StatusCodeNotFound`. -/
def StatusCodeNotFound : Int := 5
/-- Canonical code `trace.StatusCodeAlreadyExists`. -/
def StatusCodeAlreadyExists : Int := 6
/-- Canonical code `trace.StatusCodePermissionDenied`. -/
def StatusCodePermissionDenied : Int := 7
/-- Canonical code `trace.StatusCodeResourceExhausted`. -/
def StatusCodeResourceExhausted : Int := 8
/-- Canonical code `trace.StatusCodeFailedPrecondition`. -/
def StatusCodeFailedPrecondition : Int := 9
/-- Canonical code `trace.StatusCodeAborted`. -/
def StatusCodeAborted : Int := 10
/-- Canonical code `trace.StatusCodeOutOfRange`. -/
def StatusCodeOutOfRange : Int := 11
/-- Canonical code `trace.StatusCodeUnimplemented`. -/
def StatusCodeUnimplemented : Int := 12
/-- Canonical code `trace.StatusCodeInternal`. -/
def StatusCodeInternal : Int := 13
/-- Canonical code `trace.StatusCodeUnavailable`. -/
def StatusCodeUnavailable : Int := 14
/-- Canonical code `trace.StatusCodeDataLoss`. -/
def StatusCodeDataLoss : Int := 15
/-- Canonical code `trace.StatusCodeUnauthenticated`. -/
def StatusCodeUnauthenticated : Int := 16

/-- HTTP status `http.StatusOK`. -/
def StatusOK : Int := 200
/-- HTTP status `http.StatusBadRequest`. -/
def StatusBadRequest : Int := 400
/-- HTTP status `http.StatusUnauthorized`. -/
def StatusUnauthorized : Int := 401
/-- HTTP status `http.StatusForbidden`. -/
def StatusForbidden : Int := 403
/-- HTTP status `http.StatusNotFound`. -/
def StatusNotFound : Int := 404
/-- HTTP status `http.StatusUnprocessableEntity`. -/
def StatusUnprocessableEntity : Int := 422
/-- HTTP status `http.StatusTooManyRequests`. -/
def StatusTooManyRequests : Int := 429
/-- HTTP status `http.StatusNotImplemented`. -/
def StatusNotImplemented : Int := 501
/-- HTTP status `http.StatusServiceUnavailable`. -/
def StatusServiceUnavailable : Int := 503
/-- HTTP status `http.StatusGatewayTimeout`. -/
def StatusGatewayTimeout : Int := 504

/-! ## `stats.go`: the status taxonomy mapper -/

/-- The value `trace.Status`: a canonical code and its message. -/
structure Status where
  Code : Int
  Message : String
  deriving DecidableEq, Repr

/-- The entries of the map literal `codeToStr`, in source order. -/
def codeToStrEntries : List (Int × String) :=
  [ (StatusCodeOK, "OK"),
    (StatusCodeCancelled, "CANCELLED"),
    (StatusCodeUnknown, "UNKNOWN"),
    (StatusCodeInvalidArgument, "INVALID_ARGUMENT"),
    (StatusCodeDeadlineExceeded, "DEADLINE_EXCEEDED"),
    (StatusCodeNotFound, "NOT_FOUND"),
    (StatusCodeAlreadyExists, "ALREADY_EXISTS"),
    (StatusCodePermissionDenied, "PERMISSION_DENIED"),
    (StatusCodeResourceExhausted, "RESOURCE_EXHAUSTED"),
    (StatusCodeFailedPrecondition, "FAILED_PRECONDITION"),
    (StatusCodeAborted, "ABORTED"),
    (StatusCodeOutOfRange, "OUT_OF_RANGE"),
    (StatusCodeUnimplemented, "UNIMPLEMENTED"),
    (StatusCodeInternal, "INTERNAL"),
    (StatusCodeUnavailable, "UNAVAILABLE"),
    (StatusCodeDataLoss, "DATA_LOSS"),
    (StatusCodeUnauthenticated, "UNAUTHENTICATED") ]

/-- Indexing of a Go `map[int32]string` given by its entries: the value stored
under the key, or the zero value `""` when the key is absent. -/
def mapIndex : List (Int × String) → Int → String
  | [], _ => ""
  | (k, v) :: rest, key => if key = k then v else mapIndex rest key

/-- The expression `codeToStr[code]`. -/
def codeToStr (code : Int) : String :=
  mapIndex codeToStrEntries code

/-- The function `TraceStatus` of `stats.go`: `code` starts as the zero value,
is set to unknown outside `[200, 400)`, and is then overwritten by the first
matching `case` of the `switch`. -/
def TraceStatus (httpStatusCode : Int) (statusLine : String) : Status :=
  let _ := statusLine
  let code : Int := 0
  let code : Int :=
    if httpStatusCode < 200 ∨ httpStatusCode ≥ 400 then StatusCodeUnknown else code
  let code : Int :=
    if httpStatusCode = 499 then StatusCodeCancelled
    else if httpStatusCode = StatusBadRequest then StatusCodeInvalidArgument
    else if httpStatusCode = StatusUnprocessableEntity then StatusCodeInvalidArgument
    else if httpStatusCode = StatusGatewayTimeout then StatusCodeDeadlineExceeded
    else if httpStatusCode = StatusNotFound then StatusCodeNotFound
    else if httpStatusCode = StatusForbidden then StatusCodePermissionDenied
    else if httpStatusCode = StatusUnauthorized then StatusCodeUnauthenticated
    else if httpStatusCode = StatusTooManyRequests then StatusCodeResourceExhausted
    else if httpStatusCode = StatusNotImplemented then StatusCodeUnimplemented
    else if httpStatusCode = StatusServiceUnavailable then StatusCodeUnavailable
    else if httpStatusCode = StatusOK then StatusCodeOK
    else code
  { Code := code, Message := codeToStr code }

/-- The bucket bounds passed to `view.Distribution` for
`DefaultSizeDistribution`, in source order. -/
def DefaultSizeDistribution : List Nat :=
  [1024, 2048, 4096, 16384, 65536, 262144, 1048576, 4194304, 16777216, 67108864,
   268435456, 1073741824, 4294967296]

/-- The bucket bounds passed to `view.Distribution` for
`DefaultLatencyDistribution`, in source order. -/
def DefaultLatencyDistribution : List Nat :=
  [1, 2, 3, 4, 5, 6, 8, 10, 13, 16, 20, 25, 30, 40, 50, 65, 80, 100, 130, 160, 200, 250,
   300, 400, 500, 650, 800, 1000, 2000, 5000, 10000, 20000, 50000, 100000]

/-! ## Values of the tag, stats and trace libraries -/

/-- A `tag.Key`, identified by the name given to `tag.MustNewKey`. -/
structure Key where
  name : String
  deriving DecidableEq, Repr

/-- Tag key `Host`. -/
def Host : Key := ⟨"http.host"⟩
/-- Tag key `StatusCode`. -/
def StatusCode : Key := ⟨"http.status"⟩
/-- Tag key `Path`. -/
def Path : Key := ⟨"http.path"⟩
/-- Tag key `Method`. -/
def Method : Key := ⟨"http.method"⟩
/-- Tag key `KeyServerRoute`. -/
def KeyServerRoute : Key := ⟨"http_server_route"⟩

/-- A `tag.Mutator`.  The only mutator this package builds is `tag.Upsert`, and
the tag carrier is a sequence of such upserts. -/
inductive Mutator where
  | Upsert (k : Key) (v : String)
  deriving DecidableEq, Repr

/-- Stand-in for the nil mutator that fills a slice fresh from `make`. -/
instance : Inhabited Mutator := ⟨Mutator.Upsert ⟨""⟩ ""⟩

/-- The tag map carried by a context: keys with their values. -/
abbrev TagMap := List (Key × String)

/-- Value stored under a key of a tag map, if any. -/
def TagMap.value : TagMap → Key → Option String
  | [], _ => none
  | (k, v) :: rest, key => if key = k then some v else TagMap.value rest key

/-- Upsert on a tag map: replace the value of an existing key, or add the key. -/
def TagMap.upsert : TagMap → Key → String → TagMap
  | [], k, v => [(k, v)]
  | (k', v') :: rest, k, v =>
    if k = k' then (k, v) :: rest else (k', v') :: TagMap.upsert rest k v

/-- Effect of one mutator on a tag map. -/
def Mutator.Mutate : Mutator → TagMap → TagMap
  | Mutator.Upsert k v, m => m.upsert k v

/-- Mutators applied to a tag map one after the other, first to last. -/
def applyMutators (m : TagMap) (mutators : List Mutator) : TagMap :=
  mutators.foldl (fun acc mu => mu.Mutate acc) m

/-- A measure of the stats library: name, description and unit. -/
structure Measure where
  name : String
  description : String
  unit : String
  deriving DecidableEq, Repr

/-- Measure `ServerRequestCount` (`stats.UnitDimensionless` is `"1"`). -/
def ServerRequestCount : Measure :=
  ⟨"opencensus.io/http/server/request_count", "Number of HTTP requests started", "1"⟩
/-- Measure `ServerRequestBytes` (`stats.UnitBytes` is `"By"`). -/
def ServerRequestBytes : Measure :=
  ⟨"opencensus.io/http/server/request_bytes",
   "HTTP request body size if set as ContentLength (uncompressed)", "By"⟩
/-- Measure `ServerResponseBytes`. -/
def ServerResponseBytes : Measure :=
  ⟨"opencensus.io/http/server/response_bytes", "HTTP response body size (uncompressed)", "By"⟩
/-- Measure `ServerLatency` (`stats.UnitMilliseconds` is `"ms"`). -/
def ServerLatency : Measure :=
  ⟨"opencensus.io/http/server/latency", "End-to-end latency", "ms"⟩

/-- A `stats.Measurement`.  `Int64 m v` is `m.M(v)` of an integer measure;
`Float64 m num den` is `m.M(float64(num) / float64(den))` of a float measure,
the quotient being kept as its two integer operands. -/
inductive Measurement where
  | Int64 (m : Measure) (v : Int)
  | Float64 (m : Measure) (num den : Int)
  deriving DecidableEq, Repr

/-- The duration constant `time.Millisecond`, in nanoseconds. -/
def Millisecond : Int := 1000000

/-- A `trace.SpanContext`; identifiers are kept as numbers. -/
structure SpanContext where
  TraceID : Nat
  SpanID : Nat
  TraceOptions : Nat
  deriving DecidableEq, Repr

/-- A `trace.Sampler`, identified by a name. -/
structure Sampler where
  name : String
  deriving DecidableEq, Repr

/-- Span kind `trace.SpanKindServer`. -/
def SpanKindServer : Int := 1

/-- A `trace.StartOption` as built by `trace.WithSampler` and
`trace.WithSpanKind`. -/
inductive StartOption where
  | WithSampler (sampler : Sampler)
  | WithSpanKind (spanKind : Int)
  deriving DecidableEq, Repr

/-- The struct `trace.StartOptions`. -/
structure StartOptions where
  Sampler : Sampler
  SpanKind : Int
  deriving DecidableEq, Repr

/-- A span handle, described by how it was started: `root`, a span with no
parent, which opens a new trace; `remoteChild`, a span whose parent is a span
context received from another process; `child`, a span whose parent is a span
of this process, the one its context carried. -/
inductive Span where
  | root (name : String) (options : List StartOption)
  | remoteChild (name : String) (parent : SpanContext) (options : List StartOption)
  | child (name : String) (parent : Span) (options : List StartOption)
  deriving DecidableEq, Repr

/-- The remote span context a span was started under, if any. -/
def Span.remoteParent : Span → Option SpanContext
  | Span.remoteChild _ parent _ => some parent
  | _ => none

/-- The span of this process a span was started under, if any. -/
def Span.localParent : Span → Option Span
  | Span.child _ parent _ => some parent
  | _ => none

/-- Whether a span is a root span: it has no parent, remote or local. -/
def Span.isRoot : Span → Bool
  | Span.root _ _ => true
  | _ => false

/-- Link type `trace.LinkTypeParent`. -/
def LinkTypeParent : Int := 2

/-- The struct `trace.Link`; `LinkType` is its field `Type`, and `Attributes`
is `[]` for a nil map. -/
structure Link where
  TraceID : Nat
  SpanID : Nat
  LinkType : Int
  Attributes : List (String × String)
  deriving DecidableEq, Repr

/-- A `trace.Attribute` as built by `trace.StringAttribute` and
`trace.Int64Attribute`. -/
inductive Attribute where
  | StringAttribute (key value : String)
  | Int64Attribute (key : String) (value : Int)
  deriving DecidableEq, Repr

/-- A `context.Context`, reduced to what this package stores in it and reads
from it: the current span and the tag map. -/
structure Ctx where
  span : Option Span
  tags : TagMap
  deriving DecidableEq, Repr

/-- The call `trace.FromContext`: the span of the context, nil if none. -/
def FromContext (ctx : Ctx) : Option Span := ctx.span

/-- The call `trace.StartSpan`: a new span that is a child of the span the
context carries, or a root span when the context carries none, and the
context carrying the new span. -/
def StartSpan (ctx : Ctx) (name : String) (o : List StartOption) : Ctx × Span :=
  let span : Span :=
    match FromContext ctx with
    | some p => Span.child name p o
    | none => Span.root name o
  ({ ctx with span := some span }, span)

/-- The call `trace.StartSpanWithRemoteParent`: a new span whose parent is the
given remote span context, whatever span the context carries, and the context
carrying the new span. -/
def StartSpanWithRemoteParent (ctx : Ctx) (name : String) (parent : SpanContext)
    (o : List StartOption) : Ctx × Span :=
  let span : Span := Span.remoteChild name parent o
  ({ ctx with span := some span }, span)

/-- The call `tag.New`: the context whose tag map is the given one with the
mutators applied in order.  The validation of keys and values by the library
is not part of this model. -/
def tagNew (ctx : Ctx) (mutators : List Mutator) : Ctx :=
  { ctx with tags := applyMutators ctx.tags mutators }

/-! ## The request, the response and the echo context -/

/-- The parts of a `*url.URL` read by this package: the field `Path` and the
result of the method `String()`. -/
structure URL where
  Path : String
  String : String
  deriving DecidableEq, Repr

/-- The parts of a `*http.Request` read by this package.  `UserAgent` is the
result of `r.UserAgent()`, `Body` is `none` for a nil body, `ctx` is the
context of the request. -/
structure Request where
  Method : String
  URL : URL
  Host : String
  UserAgent : String
  Body : Option String
  ContentLength : Int
  ctx : Ctx
  deriving DecidableEq, Repr

/-- The method `WithContext` of a request. -/
def Request.WithContext (r : Request) (ctx : Ctx) : Request :=
  { r with ctx := ctx }

/-- The parts of an `*echo.Response` read by this package. -/
structure Response where
  Status : Int
  Size : Int
  deriving DecidableEq, Repr

/-- The state behind an `echo.Context`: the request, the response and the
matched route path returned by `Path()`. -/
structure Context where
  request : Request
  response : Response
  path : String
  deriving DecidableEq, Repr

/-- The method `SetRequest` of an echo context. -/
def Context.SetRequest (c : Context) (r : Request) : Context :=
  { c with request := r }

/-- One call into the tracing or stats library, the call `next(c)` of the
wrapped handler (`Next`, with the state behind `c` at the call), or the call
of the error-reporting path of the framework (`Error`).  Span methods carry
their receiver, a possibly nil `*trace.Span`. -/
inductive Event where
  | Start (span : Span)
  | AddLink (span : Option Span) (l : Link)
  | AddAttributes (span : Option Span) (attrs : List Attribute)
  | AddMessageReceiveEvent (span : Option Span)
      (messageID uncompressedByteSize compressedByteSize : Int)
  | SetStatus (span : Option Span) (status : Status)
  | End (span : Option Span)
  | Record (ctx : Ctx) (ms : List Measurement)
  | RecordWithTags (ctx : Ctx) (mutators : List Mutator) (ms : List Measurement)
  | Next (c : Context)
  | Error (err : String)
  deriving DecidableEq, Repr

/-- An `echo.HandlerFunc`: it may change the state behind the context it is
given and returns nil (`none`) or an error. -/
abbrev HandlerFunc := Context → Context × Option String

/-- What the surroundings of a request supply: `http.StatusText`, the error
handler of the framework reached through `c.Error`, and the two readings of
the clock, `time.Now()` at stats open and at stats close (in nanoseconds). -/
structure Runtime where
  StatusText : Int → String
  HTTPErrorHandler : String → Context → Context
  startTime : Int
  endTime : Int

/-- The function `strconv.Itoa`: the decimal representation of an integer. -/
def Itoa (i : Int) : String := toString i

/-! ## `trace.go` -/

/-- Attribute key `HostAttribute`. -/
def HostAttribute : String := "http.host"
/-- Attribute key `MethodAttribute`. -/
def MethodAttribute : String := "http.method"
/-- Attribute key `PathAttribute`. -/
def PathAttribute : String := "http.path"
/-- Attribute key `URLAttribute`. -/
def URLAttribute : String := "http.url"
/-- Attribute key `UserAgentAttribute`. -/
def UserAgentAttribute : String := "http.user_agent"
/-- Attribute key `StatusCodeAttribute`. -/
def StatusCodeAttribute : String := "http.status_code"

/-- The struct `addedTags`: the tag carrier of one request. -/
structure addedTags where
  t : List Mutator
  deriving DecidableEq, Repr

/-- The function `requestAttrs` of `trace.go`. -/
def requestAttrs (path : String) (r : Request) : List Attribute :=
  let userAgent := r.UserAgent
  let attrs : List Attribute := []
  let attrs := attrs ++
    [ Attribute.StringAttribute PathAttribute path,
      Attribute.StringAttribute URLAttribute r.URL.String,
      Attribute.StringAttribute HostAttribute r.Host,
      Attribute.StringAttribute MethodAttribute r.Method ]
  if userAgent ≠ "" then
    attrs ++ [Attribute.StringAttribute UserAgentAttribute userAgent]
  else
    attrs

/-! ## `ocecho.go` -/

/-- The struct `TraceOptions`.  `Propagation` is the method
`SpanContextFromRequest` of the configured `propagation.HTTPFormat`. -/
structure TraceOptions where
  IsPublicEndpoint : Bool
  Propagation : Request → SpanContext × Bool
  StartOptions : StartOptions

/-- The struct `ocechoHandler`. -/
structure ocechoHandler where
  IsPublicEndpoint : Bool
  Propagation : Request → SpanContext × Bool
  StartOptions : StartOptions

/-- The struct `statsTracker`; `start` is a clock reading in nanoseconds. -/
structure statsTracker where
  ctx : Ctx
  reqSize : Int
  start : Int
  deriving DecidableEq, Repr

/-- The method `startTrace`: the context afterwards, the span whose `End` is
the returned closure, and the library calls made, in order. -/
def ocechoHandler.startTrace (h : ocechoHandler) (c : Context) :
    Context × Span × List Event :=
  let r := c.request
  let name := c.path
  let ctx := r.ctx
  let found := h.Propagation r
  let sc := found.1
  let ok := found.2
  let started : (Ctx × Span) × List Event :=
    if ok && !h.IsPublicEndpoint then
      let s := StartSpanWithRemoteParent ctx name sc
        [StartOption.WithSampler h.StartOptions.Sampler, StartOption.WithSpanKind SpanKindServer]
      (s, [Event.Start s.2])
    else
      let s := StartSpan ctx name
        [StartOption.WithSampler h.StartOptions.Sampler, StartOption.WithSpanKind SpanKindServer]
      let log := [Event.Start s.2]
      let log :=
        if ok then
          log ++ [Event.AddLink (some s.2)
            { TraceID := sc.TraceID, SpanID := sc.SpanID, LinkType := LinkTypeParent,
              Attributes := [] }]
        else log
      (s, log)
  let ctx := started.1.1
  let span := started.1.2
  let log := started.2
  let log := log ++ [Event.AddAttributes (some span) (requestAttrs c.path r)]
  let log :=
    if r.Body = none then log
    else if r.ContentLength > 0 then
      log ++ [Event.AddMessageReceiveEvent (some span) 0 r.ContentLength (-1)]
    else log
  let r := r.WithContext ctx
  let c := c.SetRequest r
  (c, span, log)

/-- The method `startStats`: the context afterwards, the tracker whose `end`
is the returned closure, and the library calls made, in order.  `now` is the
reading of `time.Now()`. -/
def ocechoHandler.startStats (_h : ocechoHandler) (now : Int) (c : Context) :
    Context × statsTracker × List Event :=
  let r := c.request
  let ctx := tagNew r.ctx
    [Mutator.Upsert Host r.Host, Mutator.Upsert Path r.URL.Path, Mutator.Upsert Method r.Method]
  let track : statsTracker := { start := now, ctx := ctx, reqSize := 0 }
  let track : statsTracker :=
    if r.Body = none then { track with reqSize := -1 }
    else if r.ContentLength > 0 then { track with reqSize := r.ContentLength }
    else track
  let r := r.WithContext ctx
  let c := c.SetRequest r
  (c, track, [Event.Record ctx [Measurement.Int64 ServerRequestCount 1]])

/-- The builtin `make([]tag.Mutator, n)`: `n` zero values (the stand-in for
nil); `end` overwrites every one of them. -/
def makeMutators (n : Nat) : List Mutator :=
  List.replicate n default

/-- The builtin `copy(dst, src)`: `dst` with its first `min (len dst) (len src)`
elements replaced by those of `src`. -/
def copy (dst src : List Mutator) : List Mutator :=
  src.take dst.length ++ dst.drop src.length

/-- The method `end` of `statsTracker` (`end` is a keyword here): the library
calls made, in order.  `time.Since(t.start)` is `rt.endTime - t.start`. -/
def statsTracker.end_ (t : statsTracker) (rt : Runtime) (c : Context) (tags : addedTags) :
    List Event :=
  let statusCode := c.response.Status
  let statusCode := if statusCode = 0 then 200 else statusCode
  let statusLine := rt.StatusText statusCode
  let span := FromContext t.ctx
  let log :=
    [ Event.SetStatus span (TraceStatus statusCode statusLine),
      Event.AddAttributes span [Attribute.Int64Attribute StatusCodeAttribute statusCode] ]
  let m : List Measurement :=
    [ Measurement.Float64 ServerLatency (rt.endTime - t.start) Millisecond,
      Measurement.Int64 ServerResponseBytes c.response.Size ]
  let m := if t.reqSize ≥ 0 then m ++ [Measurement.Int64 ServerRequestBytes t.reqSize] else m
  let allTags := makeMutators (tags.t.length + 1)
  let allTags := allTags.set 0 (Mutator.Upsert StatusCode (Itoa statusCode))
  let allTags := allTags.take 1 ++ copy (allTags.drop 1) tags.t
  log ++ [Event.RecordWithTags t.ctx allTags m]

/-- What one call of the handler built by the middleware produces: the error
it returns, the state behind the echo context afterwards, and the calls made,
in order. -/
structure Outcome where
  err : Option String
  c : Context
  log : List Event

/-- The handler returned by `OpenCensusMiddleware(opts)(next)`.  The call
`next(c)` is logged with the state it is made on and its result is used from
there on.  The two deferred calls run after the body, last deferred first:
`statsEnd(c, &tags)`, then `traceEnd()`. -/
def OpenCensusMiddleware (rt : Runtime) (opts : TraceOptions) (next : HandlerFunc)
    (c : Context) : Outcome :=
  let m : ocechoHandler :=
    { IsPublicEndpoint := opts.IsPublicEndpoint,
      Propagation := opts.Propagation,
      StartOptions := opts.StartOptions }
  let tags : addedTags := { t := [] }
  let traced := m.startTrace c
  let c := traced.1
  let traceEnd : List Event := [Event.End (some traced.2.1)]
  let log := traced.2.2
  let opened := m.startStats rt.startTime c
  let c := opened.1
  let statsEnd : Context → addedTags → List Event := fun c tags => opened.2.1.end_ rt c tags
  let log := log ++ opened.2.2
  let log := log ++ [Event.Next c]
  let ran := next c
  let c := ran.1
  let err := ran.2
  let reported : Context × List Event :=
    match err with
    | some e => (rt.HTTPErrorHandler e c, log ++ [Event.Error e])
    | none => (c, log)
  let c := reported.1
  let log := reported.2
  let log := log ++ statsEnd c tags
  let log := log ++ traceEnd
  { err := err, c := c, log := log }

/-! ## Observations on the event log -/

/-- The spans started in a log, in order. -/
def spansStarted (log : List Event) : List Span :=
  log.filterMap fun e =>
    match e with
    | Event.Start span => some span
    | _ => none

/-- The receivers of the span `End` calls of a log, in order. -/
def spansEnded (log : List Event) : List (Option Span) :=
  log.filterMap fun e =>
    match e with
    | Event.End span => some span
    | _ => none

/-- The links added in a log, each with the span it was added to. -/
def linksAdded (log : List Event) : List (Option Span × Link) :=
  log.filterMap fun e =>
    match e with
    | Event.AddLink span l => some (span, l)
    | _ => none

/-- The measurement lists of the `stats.Record` calls of a log. -/
def openBatches (log : List Event) : List (List Measurement) :=
  log.filterMap fun e =>
    match e with
    | Event.Record _ ms => some ms
    | _ => none

/-- The measurement lists of the `stats.RecordWithTags` calls of a log. -/
def closeBatches (log : List Event) : List (List Measurement) :=
  log.filterMap fun e =>
    match e with
    | Event.RecordWithTags _ _ ms => some ms
    | _ => none

/-- The mutator lists of the `stats.RecordWithTags` calls of a log. -/
def closeTags (log : List Event) : List (List Mutator) :=
  log.filterMap fun e =>
    match e with
    | Event.RecordWithTags _ mutators _ => some mutators
    | _ => none

/-- The errors passed to `c.Error` in a log. -/
def errorsReported (log : List Event) : List String :=
  log.filterMap fun e =>
    match e with
    | Event.Error err => some err
    | _ => none

/-- The contexts the wrapped handler was called on in a log, in order. -/
def handlerRuns (log : List Event) : List Context :=
  log.filterMap fun e =>
    match e with
    | Event.Next c => some c
    | _ => none

/-- The span statuses set in a log, each with the span it was set on. -/
def statusesSet (log : List Event) : List (Option Span × Status) :=
  log.filterMap fun e =>
    match e with
    | Event.SetStatus span status => some (span, status)
    | _ => none

/-- The values of the request-size measurements of a measurement list. -/
def requestSizes : List Measurement → List Int
  | [] => []
  | Measurement.Int64 m v :: rest =>
    if m = ServerRequestBytes then v :: requestSizes rest else requestSizes rest
  | _ :: rest => requestSizes rest

/-- The steps of the request lifecycle. -/
inductive Phase where
  | SpanOpen
  | StatsOpen
  | HandlerRun
  | StatsClose
  | SpanClose
  deriving DecidableEq, Repr

/-- The lifecycle step an event stands for, if any: span start, `stats.Record`,
run of the wrapped handler, `stats.RecordWithTags`, span end. -/
def phaseOf : Event → Option Phase
  | Event.Start _ => some Phase.SpanOpen
  | Event.Record _ _ => some Phase.StatsOpen
  | Event.Next _ => some Phase.HandlerRun
  | Event.RecordWithTags _ _ _ => some Phase.StatsClose
  | Event.End _ => some Phase.SpanClose
  | _ => none

/-- The lifecycle steps of a log, in order. -/
def phases (log : List Event) : List Phase :=
  log.filterMap phaseOf

/-- The value of the last upsert of a key in a mutator list, if there is one. -/
def lastUpsert (k : Key) : List Mutator → Option String
  | [] => none
  | Mutator.Upsert k' v :: rest =>
    match lastUpsert k rest with
    | some w => some w
    | none => if k' = k then some v else none

/-- The status recorded by `end`: the response status, 200 standing for 0. -/
def finalStatus (c : Context) : Int :=
  if c.response.Status = 0 then 200 else c.response.Status

/-- The state behind the echo context when the wrapped handler is called:
that of the incoming call after `startTrace` and `startStats`. -/
def handlerContext (rt : Runtime) (opts : TraceOptions) (c : Context) : Context :=
  (ocechoHandler.startStats ⟨opts.IsPublicEndpoint, opts.Propagation, opts.StartOptions⟩
    rt.startTime
    (ocechoHandler.startTrace
      ⟨opts.IsPublicEndpoint, opts.Propagation, opts.StartOptions⟩ c).1).1

/-- The state behind the echo context when the deferred calls run: what the
wrapped handler left, passed through the error handler of the framework when
the wrapped handler returned an error. -/
def closeContext (rt : Runtime) (opts : TraceOptions) (next : HandlerFunc) (c : Context) :
    Context :=
  match (next (handlerContext rt opts c)).2 with
  | some e => rt.HTTPErrorHandler e (next (handlerContext rt opts c)).1
  | none => (next (handlerContext rt opts c)).1

/-- The tag map a `stats.RecordWithTags` call records under: that of its
context with its mutators applied (`tag.New`). -/
def recordedTags (ctx : Ctx) (mutators : List Mutator) : TagMap :=
  (tagNew ctx mutators).tags

/-! ## Sample inputs -/

/-- Start options for the samples. -/
def sampleStartOptions : StartOptions := { Sampler := ⟨"always"⟩, SpanKind := 0 }

/-- A propagation format that finds the span context (7, 9). -/
def foundPropagation : Request → SpanContext × Bool :=
  fun _ => ({ TraceID := 7, SpanID := 9, TraceOptions := 1 }, true)

/-- A propagation format that finds nothing. -/
def missingPropagation : Request → SpanContext × Bool :=
  fun _ => ({ TraceID := 0, SpanID := 0, TraceOptions := 0 }, false)

/-- A GET request of an HTTP server: no payload, so a non-nil empty body and a
content length of 0. -/
def sampleGet : Request :=
  { Method := "GET", URL := { Path := "/", String := "/" }, Host := "localhost:1323",
    UserAgent := "curl/8.0", Body := some "", ContentLength := 0,
    ctx := { span := none, tags := [] } }

/-- A POST request with a body of 1500 bytes. -/
def samplePost : Request :=
  { sampleGet with Method := "POST", Body := some "payload", ContentLength := 1500 }

/-- A request with a nil body. -/
def sampleNilBody : Request :=
  { sampleGet with Body := none }

/-- A request whose context already carries a span, as left by an outer
tracing layer. -/
def sampleTraced : Request :=
  { sampleGet with ctx := { span := some (Span.root "outer" []), tags := [] } }

/-- An echo context around a request, with a response not yet written. -/
def sampleContext (r : Request) : Context :=
  { request := r, response := { Status := 0, Size := 0 }, path := "/" }

/-- A runtime for the samples: a status text table with two entries, an error
handler that writes status 500, and a request lasting 3 ms. -/
def sampleRuntime : Runtime :=
  { StatusText := fun code => if code = 200 then "OK" else if code = 404 then "Not Found" else "",
    HTTPErrorHandler := fun _ c => { c with response := { Status := 500, Size := 21 } },
    startTime := 1000000, endTime := 4000000 }

/-- A handler that writes a 200 response of 14 bytes and returns nil. -/
def sampleNextOk : HandlerFunc :=
  fun c => ({ c with response := { Status := 200, Size := 14 } }, none)

/-- A handler that writes nothing and returns an error. -/
def sampleNextFail : HandlerFunc :=
  fun c => (c, some "boom")

/-- A handler configuration for the samples: public endpoint, span context
found. -/
def sampleHandler : ocechoHandler :=
  { IsPublicEndpoint := true, Propagation := foundPropagation,
    StartOptions := sampleStartOptions }

/-- A handler configuration for the samples: endpoint not public, no span
context found. -/
def sampleInnerHandler : ocechoHandler :=
  { IsPublicEndpoint := false, Propagation := missingPropagation,
    StartOptions := sampleStartOptions }

/-- The same configuration as `TraceOptions`. -/
def sampleOptions : TraceOptions :=
  { IsPublicEndpoint := true, Propagation := foundPropagation,
    StartOptions := sampleStartOptions }

/-- A tracker for the samples, with a tag map holding a host. -/
def sampleTracker : statsTracker :=
  { ctx := { span := none, tags := [(Host, "localhost:1323")] }, reqSize := -1, start := 0 }

/-! ## Theorems: the status taxonomy mapper -/

/-- Outside the eleven listed codes, `TraceStatus` is decided by the range
test alone. -/
theorem TraceStatus_unlisted (c : Int) (s : String)
    (hno : c ∉ [499, 400, 422, 504, 404, 403, 401, 429, 501, 503, (200 : Int)]) :
    TraceStatus c s =
      if c < 200 ∨ c ≥ 400 then ⟨StatusCodeUnknown, "UNKNOWN"⟩ else ⟨StatusCodeOK, "OK"⟩ := by
  simp only [List.mem_cons, List.mem_singleton, not_or, List.mem_nil_iff, or_false] at hno
  obtain ⟨h1, h2, h3, h4, h5, h6, h7, h8, h9, h10, h11⟩ := hno
  simp only [TraceStatus, StatusBadRequest, StatusUnprocessableEntity, StatusGatewayTimeout,
    StatusNotFound, StatusForbidden, StatusUnauthorized, StatusTooManyRequests,
    StatusNotImplemented, StatusServiceUnavailable, StatusOK, if_neg h1, if_neg h2, if_neg h3,
    if_neg h4, if_neg h5, if_neg h6, if_neg h7, if_neg h8, if_neg h9, if_neg h10, if_neg h11]
  by_cases hr : c < 200 ∨ c ≥ 400
  · rw [if_pos hr, if_pos hr]; rfl
  · rw [if_neg hr, if_neg hr]; rfl

/-- C1: for every status line, each of the eleven listed HTTP codes maps to
its listed canonical code with that code's table message, and every other
code below 200 or at least 400 maps to unknown with message "UNKNOWN". -/
theorem TraceStatus_default_then_override (s : String) :
    TraceStatus 499 s = ⟨StatusCodeCancelled, "CANCELLED"⟩ ∧
    TraceStatus 400 s = ⟨StatusCodeInvalidArgument, "INVALID_ARGUMENT"⟩ ∧
    TraceStatus 422 s = ⟨StatusCodeInvalidArgument, "INVALID_ARGUMENT"⟩ ∧
    TraceStatus 504 s = ⟨StatusCodeDeadlineExceeded, "DEADLINE_EXCEEDED"⟩ ∧
    TraceStatus 404 s = ⟨StatusCodeNotFound, "NOT_FOUND"⟩ ∧
    TraceStatus 403 s = ⟨StatusCodePermissionDenied, "PERMISSION_DENIED"⟩ ∧
    TraceStatus 401 s = ⟨StatusCodeUnauthenticated, "UNAUTHENTICATED"⟩ ∧
    TraceStatus 429 s = ⟨StatusCodeResourceExhausted, "RESOURCE_EXHAUSTED"⟩ ∧
    TraceStatus 501 s = ⟨StatusCodeUnimplemented, "UNIMPLEMENTED"⟩ ∧
    TraceStatus 503 s = ⟨StatusCodeUnavailable, "UNAVAILABLE"⟩ ∧
    TraceStatus 200 s = ⟨StatusCodeOK, "OK"⟩ ∧
    (∀ c : Int, (c < 200 ∨ c ≥ 400) →
      c ∉ [499, 400, 422, 504, 404, 403, 401, 429, 501, 503, (200 : Int)] →
      TraceStatus c s = ⟨StatusCodeUnknown, "UNKNOWN"⟩) := by
  refine ⟨rfl, rfl, rfl, rfl, rfl, rfl, rfl, rfl, rfl, rfl, rfl, ?_⟩
  intro c hr hno
  rw [TraceStatus_unlisted c s hno, if_pos hr]

/-- Witness of C1 at the unlisted code 500. -/
theorem TraceStatus_default_then_override_witness :
    ((500 : Int) < 200 ∨ (500 : Int) ≥ 400) ∧
    (500 : Int) ∉ [499, 400, 422, 504, 404, 403, 401, 429, 501, 503, (200 : Int)] ∧
    TraceStatus 500 "Internal Server Error" = ⟨StatusCodeUnknown, "UNKNOWN"⟩ :=
  ⟨by decide, by decide,
    (TraceStatus_default_then_override "Internal Server Error").2.2.2.2.2.2.2.2.2.2.2
      500 (by decide) (by decide)⟩

/-- C2, as stated, fails: code 250 with the empty status line is not mapped
to unknown. -/
theorem TraceStatus_250_not_unknown :
    TraceStatus 250 "" ≠ ⟨StatusCodeUnknown, "UNKNOWN"⟩ := by
  decide

/-- C2, amended: for every status line, code 250 maps to the canonical code
OK with message "OK". -/
theorem TraceStatus_250_ok (s : String) :
    TraceStatus 250 s = ⟨StatusCodeOK, "OK"⟩ := rfl

/-- C10: every code in [200, 400) maps to OK, the zero value, with message
"OK"; and for every code the message is the table entry of the returned code,
which is present in the table and not empty. -/
theorem TraceStatus_success_range_and_message (c : Int) (s : String) :
    (200 ≤ c → c < 400 → TraceStatus c s = ⟨StatusCodeOK, "OK"⟩) ∧
    StatusCodeOK = 0 ∧
    (TraceStatus c s).Message = codeToStr (TraceStatus c s).Code ∧
    ((TraceStatus c s).Code, (TraceStatus c s).Message) ∈ codeToStrEntries ∧
    (TraceStatus c s).Message ≠ "" := by
  by_cases hno : c ∉ [499, 400, 422, 504, 404, 403, 401, 429, 501, 503, (200 : Int)]
  · rw [TraceStatus_unlisted c s hno]
    by_cases hr : c < 200 ∨ c ≥ 400
    · rw [if_pos hr]
      refine ⟨fun h1 h2 => ?_, rfl, rfl, by decide, by decide⟩
      omega
    · rw [if_neg hr]
      exact ⟨fun _ _ => rfl, rfl, rfl, by decide, by decide⟩
  · rw [not_not] at hno
    simp only [List.mem_cons, List.mem_singleton, List.mem_nil_iff, or_false] at hno
    have e : TraceStatus c s = TraceStatus c "" := rfl
    rw [e]
    rcases hno with h | h | h | h | h | h | h | h | h | h | h <;> subst h <;> decide

/-- Witness of C10 at code 302. -/
theorem TraceStatus_success_range_and_message_witness :
    (200 : Int) ≤ 302 ∧ (302 : Int) < 400 ∧
    TraceStatus 302 "Found" = ⟨StatusCodeOK, "OK"⟩ :=
  ⟨by decide, by decide,
    (TraceStatus_success_range_and_message 302 "Found").1 (by decide) (by decide)⟩

/-! ## Theorems: the default size buckets -/

/-- C9, as stated, fails: the bounds are not the values 1024 * 2^k for
k = 0, ..., 12; the value for k = 3 is missing and the last bound is larger
than the value for k = 12. -/
theorem DefaultSizeDistribution_not_doubling :
    DefaultSizeDistribution ≠ (List.range 13).map (fun k => 1024 * 2 ^ k) ∧
    1024 * 2 ^ 3 ∉ DefaultSizeDistribution ∧
    DefaultSizeDistribution.getLast? = some 4294967296 ∧
    1024 * 2 ^ 12 < 4294967296 := by
  decide

/-- C9, amended: the bounds are exactly the 13 values 1024, 2048 and
4096 * 4^j for j = 0, ..., 10, the last one being 2^32. -/
theorem DefaultSizeDistribution_values :
    DefaultSizeDistribution = [1024, 2048] ++ (List.range 11).map (fun j => 4096 * 4 ^ j) ∧
    DefaultSizeDistribution.length = 13 ∧
    DefaultSizeDistribution.getLast? = some (2 ^ 32) := by
  decide

/-! ## Theorems: span parentage -/

/-- C4, as stated, fails: for a request whose context already carries a span,
with extraction failing, the span `startTrace` starts is a child of that span
and not a root span. -/
theorem startTrace_child_of_context_span :
    (sampleInnerHandler.Propagation (sampleContext sampleTraced).request).2 = false ∧
    (sampleContext sampleTraced).request.ctx.span = some (Span.root "outer" []) ∧
    (sampleInnerHandler.startTrace (sampleContext sampleTraced)).2.1 =
      Span.child "/" (Span.root "outer" [])
        [StartOption.WithSampler ⟨"always"⟩, StartOption.WithSpanKind SpanKindServer] ∧
    (sampleInnerHandler.startTrace (sampleContext sampleTraced)).2.1.isRoot = false := by
  decide

/-- C4, amended: `startTrace` starts exactly one span; it is a remote child of
the extracted span context exactly when extraction succeeded and the endpoint
is not public, and then no link is added; otherwise it has no remote parent
and is started under the context of the request: a root span exactly when
that context carries no span, a child of the span it carries otherwise; it
gets exactly one link of type parent carrying the extracted trace and span
identifiers when extraction succeeded and the endpoint is public, and no
link when extraction failed. -/
theorem startTrace_parentage (h : ocechoHandler) (c : Context) :
    spansStarted (h.startTrace c).2.2 = [(h.startTrace c).2.1] ∧
    ((h.startTrace c).2.1.remoteParent = some (h.Propagation c.request).1 ↔
      ((h.Propagation c.request).2 = true ∧ h.IsPublicEndpoint = false)) ∧
    ((h.Propagation c.request).2 = true → h.IsPublicEndpoint = false →
      (h.startTrace c).2.1.localParent = none ∧
      linksAdded (h.startTrace c).2.2 = []) ∧
    (¬ ((h.Propagation c.request).2 = true ∧ h.IsPublicEndpoint = false) →
      (h.startTrace c).2.1.remoteParent = none ∧
      (h.startTrace c).2.1.localParent = c.request.ctx.span ∧
      ((h.startTrace c).2.1.isRoot = true ↔ c.request.ctx.span = none)) ∧
    ((h.Propagation c.request).2 = true → h.IsPublicEndpoint = true →
      linksAdded (h.startTrace c).2.2 =
        [(some (h.startTrace c).2.1,
          { TraceID := (h.Propagation c.request).1.TraceID,
            SpanID := (h.Propagation c.request).1.SpanID,
            LinkType := LinkTypeParent, Attributes := [] })]) ∧
    ((h.Propagation c.request).2 = false → linksAdded (h.startTrace c).2.2 = []) := by
  cases hok : (h.Propagation c.request).2 <;> cases hpub : h.IsPublicEndpoint <;>
    cases hsp : c.request.ctx.span <;>
    by_cases hb : c.request.Body = none <;> by_cases hl : c.request.ContentLength > 0 <;>
    simp [ocechoHandler.startTrace, spansStarted, linksAdded, StartSpan,
      StartSpanWithRemoteParent, FromContext, Span.remoteParent, Span.localParent,
      Span.isRoot, hok, hpub, hsp, hb, hl]

/-- Witness of C4: on a public endpoint with a found span context, a request
whose context carries no span gets a root span and one parent link. -/
theorem startTrace_parentage_witness :
    (sampleHandler.Propagation (sampleContext sampleGet).request).2 = true ∧
    sampleHandler.IsPublicEndpoint = true ∧
    (sampleContext sampleGet).request.ctx.span = none ∧
    (sampleHandler.startTrace (sampleContext sampleGet)).2.1.isRoot = true ∧
    linksAdded (sampleHandler.startTrace (sampleContext sampleGet)).2.2 =
      [(some (sampleHandler.startTrace (sampleContext sampleGet)).2.1,
        { TraceID := 7, SpanID := 9, LinkType := LinkTypeParent, Attributes := [] })] :=
  ⟨rfl, rfl, rfl,
    ((startTrace_parentage sampleHandler (sampleContext sampleGet)).2.2.2.1
      (by decide)).2.2.2 rfl,
    (startTrace_parentage sampleHandler (sampleContext sampleGet)).2.2.2.2.1 rfl rfl⟩

/-! ## Theorems: the stats tracker -/

/-- The tag list built by `make`, the assignment of index 0 and `copy` is the
first tag followed by the carried tags. -/
theorem allTags_eq (x : Mutator) (ts : List Mutator) :
    ((makeMutators (ts.length + 1)).set 0 x).take 1 ++
      copy (((makeMutators (ts.length + 1)).set 0 x).drop 1) ts = x :: ts := by
  simp [makeMutators, List.replicate_succ, copy]

/-- The calls made by `end`, with the tag list in closed form. -/
theorem end_log (t : statsTracker) (rt : Runtime) (c : Context) (tags : addedTags) :
    t.end_ rt c tags =
      [ Event.SetStatus (FromContext t.ctx)
          (TraceStatus (finalStatus c) (rt.StatusText (finalStatus c))),
        Event.AddAttributes (FromContext t.ctx)
          [Attribute.Int64Attribute StatusCodeAttribute (finalStatus c)],
        Event.RecordWithTags t.ctx
          (Mutator.Upsert StatusCode (Itoa (finalStatus c)) :: tags.t)
          (if t.reqSize ≥ 0 then
            [ Measurement.Float64 ServerLatency (rt.endTime - t.start) Millisecond,
              Measurement.Int64 ServerResponseBytes c.response.Size,
              Measurement.Int64 ServerRequestBytes t.reqSize ]
          else
            [ Measurement.Float64 ServerLatency (rt.endTime - t.start) Millisecond,
              Measurement.Int64 ServerResponseBytes c.response.Size ]) ] := by
  unfold statsTracker.end_
  simp only [allTags_eq, finalStatus]
  by_cases hs : t.reqSize ≥ 0 <;> simp [hs]

/-- The one measurement batch of `end`. -/
theorem closeBatches_end (t : statsTracker) (rt : Runtime) (c : Context) (tags : addedTags) :
    closeBatches (t.end_ rt c tags) =
      [ if t.reqSize ≥ 0 then
          [ Measurement.Float64 ServerLatency (rt.endTime - t.start) Millisecond,
            Measurement.Int64 ServerResponseBytes c.response.Size,
            Measurement.Int64 ServerRequestBytes t.reqSize ]
        else
          [ Measurement.Float64 ServerLatency (rt.endTime - t.start) Millisecond,
            Measurement.Int64 ServerResponseBytes c.response.Size ] ] := by
  rw [end_log]
  simp [closeBatches]

/-- The tracked request size set by `startStats`. -/
theorem startStats_reqSize (h : ocechoHandler) (now : Int) (c : Context) :
    (h.startStats now c).2.1.reqSize =
      if c.request.Body = none then -1
      else if c.request.ContentLength > 0 then c.request.ContentLength else 0 := by
  unfold ocechoHandler.startStats
  by_cases hb : c.request.Body = none <;> by_cases hl : c.request.ContentLength > 0 <;>
    simp [hb, hl]

/-- Value of a key after an upsert. -/
theorem value_upsert (m : TagMap) (k : Key) (v : String) (key : Key) :
    (m.upsert k v).value key = if key = k then some v else m.value key := by
  induction m with
  | nil => simp [TagMap.upsert, TagMap.value]
  | cons p rest ih =>
    obtain ⟨k', v'⟩ := p
    by_cases hk : k = k'
    · subst hk
      by_cases hkey : key = k <;> simp [TagMap.upsert, TagMap.value, hkey]
    · by_cases hkey : key = k'
      · subst hkey
        have hne : ¬ key = k := fun e => hk e.symm
        simp [TagMap.upsert, TagMap.value, hk, hne]
      · simp [TagMap.upsert, TagMap.value, hk, hkey, ih]

/-- Value of a key after a list of mutators: that of the last upsert of the
key, or the earlier value when the list has none. -/
theorem value_applyMutators (ts : List Mutator) (m : TagMap) (key : Key) :
    (applyMutators m ts).value key =
      match lastUpsert key ts with
      | some v => some v
      | none => m.value key := by
  induction ts generalizing m with
  | nil => simp [applyMutators, lastUpsert]
  | cons mu rest ih =>
    obtain ⟨k, v⟩ := mu
    have hstep : applyMutators m (Mutator.Upsert k v :: rest) =
        applyMutators (m.upsert k v) rest := rfl
    rw [hstep, ih, value_upsert]
    cases hl : lastUpsert key rest with
    | some w => simp [lastUpsert, hl]
    | none =>
      by_cases hk : k = key
      · subst hk; simp [lastUpsert, hl]
      · have hne : ¬ key = k := fun e => hk e.symm
        simp [lastUpsert, hl, hk, hne]

/-- The last upsert of a key is an upsert of that key in the list. -/
theorem lastUpsert_mem (key : Key) (ts : List Mutator) (v : String)
    (h : lastUpsert key ts = some v) : Mutator.Upsert key v ∈ ts := by
  induction ts with
  | nil => simp [lastUpsert] at h
  | cons mu rest ih =>
    obtain ⟨k, w⟩ := mu
    cases hl : lastUpsert key rest with
    | some u =>
      simp only [lastUpsert, hl] at h
      cases h
      exact List.mem_cons_of_mem _ (ih hl)
    | none =>
      simp only [lastUpsert, hl] at h
      by_cases hk : k = key
      · simp only [hk, if_true] at h
        cases h
        subst hk
        exact List.mem_cons_self _ _
      · simp [hk] at h

/-- C3, as stated, fails: for a GET request of a server (non-nil body,
content length 0) the tracked size is 0, not negative, and the close batch
holds a request-size measurement of 0. -/
theorem request_size_emitted_for_empty_body :
    sampleGet.Body ≠ none ∧ ¬ sampleGet.ContentLength > 0 ∧
    (sampleHandler.startStats 0 (sampleContext sampleGet)).2.1.reqSize = 0 ∧
    closeBatches ((sampleHandler.startStats 0 (sampleContext sampleGet)).2.1.end_
        sampleRuntime (sampleNextOk (sampleContext sampleGet)).1 { t := [] }) =
      [[ Measurement.Float64 ServerLatency 4000000 Millisecond,
         Measurement.Int64 ServerResponseBytes 14,
         Measurement.Int64 ServerRequestBytes 0 ]] := by
  decide

/-- C3, amended: for a request whose body is nil or whose content length is
not negative, the close batch holds a request-size measurement exactly when
the body is not nil, and then exactly one, whose value is the content length,
which is also the tracked size; with a nil body the tracked size is -1 and
the close batch holds no request-size measurement. -/
theorem request_size_measurement (h : ocechoHandler) (rt : Runtime) (c atClose : Context)
    (tags : addedTags) (hcl : c.request.Body = none ∨ 0 ≤ c.request.ContentLength) :
    ∃ ms, closeBatches ((h.startStats rt.startTime c).2.1.end_ rt atClose tags) = [ms] ∧
      (requestSizes ms ≠ [] ↔ c.request.Body ≠ none) ∧
      (c.request.Body = none →
        (h.startStats rt.startTime c).2.1.reqSize = -1 ∧ requestSizes ms = []) ∧
      (c.request.Body ≠ none →
        (h.startStats rt.startTime c).2.1.reqSize = c.request.ContentLength ∧
        requestSizes ms = [c.request.ContentLength]) := by
  rw [closeBatches_end, startStats_reqSize]
  refine ⟨_, rfl, ?_⟩
  by_cases hb : c.request.Body = none
  · simp [hb, requestSizes, ServerRequestBytes, ServerResponseBytes]
  · have h0 : 0 ≤ c.request.ContentLength := hcl.resolve_left hb
    by_cases hl : c.request.ContentLength > 0
    · have hge : c.request.ContentLength ≥ 0 := h0
      simp [hb, hl, hge, requestSizes, ServerRequestBytes, ServerResponseBytes]
    · have hz : c.request.ContentLength = 0 := by omega
      simp [hb, hz, requestSizes, ServerRequestBytes, ServerResponseBytes]

/-- Witness of C3: a body with content length 1500 records 1500. -/
theorem request_size_measurement_witness :
    (samplePost.Body = none ∨ 0 ≤ samplePost.ContentLength) ∧
    ∃ ms, closeBatches ((sampleHandler.startStats sampleRuntime.startTime
        (sampleContext samplePost)).2.1.end_ sampleRuntime
          (sampleNextOk (sampleContext samplePost)).1 { t := [] }) = [ms] ∧
      (requestSizes ms ≠ [] ↔ (sampleContext samplePost).request.Body ≠ none) ∧
      ((sampleContext samplePost).request.Body = none →
        (sampleHandler.startStats sampleRuntime.startTime
          (sampleContext samplePost)).2.1.reqSize = -1 ∧ requestSizes ms = []) ∧
      ((sampleContext samplePost).request.Body ≠ none →
        (sampleHandler.startStats sampleRuntime.startTime
          (sampleContext samplePost)).2.1.reqSize = 1500 ∧
        requestSizes ms = [1500]) :=
  ⟨Or.inr (by decide),
    request_size_measurement sampleHandler sampleRuntime (sampleContext samplePost)
      (sampleNextOk (sampleContext samplePost)).1 { t := [] } (Or.inr (by decide))⟩

/-- C5, as stated, fails: with status 200 and a carrier holding an upsert of
the status-code key with value "200", the carrier contains an upsert of that
key, yet the recorded status-code value does not differ from the decimal
status. -/
theorem status_tag_same_value_upsert :
    Mutator.Upsert StatusCode "200" ∈ [Mutator.Upsert StatusCode "200"] ∧
    closeTags (sampleTracker.end_ sampleRuntime (sampleNextOk (sampleContext sampleGet)).1
        { t := [Mutator.Upsert StatusCode "200"] }) =
      [[Mutator.Upsert StatusCode "200", Mutator.Upsert StatusCode "200"]] ∧
    ¬ ((recordedTags sampleTracker.ctx
          [Mutator.Upsert StatusCode "200", Mutator.Upsert StatusCode "200"]).value StatusCode ≠
        some (Itoa 200)) := by
  decide

/-- C5, amended: the tag list passed to the stats record call is the upsert
of the status-code key with the decimal final status, followed by the carried
tags in order (length one more than the carrier); the recorded status-code
value is that of the last upsert of the status-code key in the carrier, or
the decimal status when the carrier has none; so it differs from the decimal
status exactly when that last upsert carries another value, and only if the
carrier contains an upsert of the status-code key. -/
theorem end_tags (t : statsTracker) (rt : Runtime) (c : Context) (tags : addedTags) :
    closeTags (t.end_ rt c tags) =
      [Mutator.Upsert StatusCode (Itoa (finalStatus c)) :: tags.t] ∧
    (Mutator.Upsert StatusCode (Itoa (finalStatus c)) :: tags.t).length = tags.t.length + 1 ∧
    (recordedTags t.ctx
        (Mutator.Upsert StatusCode (Itoa (finalStatus c)) :: tags.t)).value StatusCode =
      some ((lastUpsert StatusCode tags.t).getD (Itoa (finalStatus c))) ∧
    ((recordedTags t.ctx
        (Mutator.Upsert StatusCode (Itoa (finalStatus c)) :: tags.t)).value StatusCode ≠
        some (Itoa (finalStatus c)) ↔
      ∃ v, lastUpsert StatusCode tags.t = some v ∧ v ≠ Itoa (finalStatus c)) ∧
    ((recordedTags t.ctx
        (Mutator.Upsert StatusCode (Itoa (finalStatus c)) :: tags.t)).value StatusCode ≠
        some (Itoa (finalStatus c)) →
      ∃ v, Mutator.Upsert StatusCode v ∈ tags.t) := by
  have hval : (recordedTags t.ctx
        (Mutator.Upsert StatusCode (Itoa (finalStatus c)) :: tags.t)).value StatusCode =
      some ((lastUpsert StatusCode tags.t).getD (Itoa (finalStatus c))) := by
    have hstep : recordedTags t.ctx
        (Mutator.Upsert StatusCode (Itoa (finalStatus c)) :: tags.t) =
        applyMutators (t.ctx.tags.upsert StatusCode (Itoa (finalStatus c))) tags.t := rfl
    rw [hstep, value_applyMutators, value_upsert]
    cases lastUpsert StatusCode tags.t <;> simp
  refine ⟨?_, by simp, hval, ?_, ?_⟩
  · rw [end_log]; simp [closeTags]
  · rw [hval]
    cases hl : lastUpsert StatusCode tags.t <;> simp
  · rw [hval]
    cases hl : lastUpsert StatusCode tags.t with
    | none => simp
    | some v => exact fun _ => ⟨v, lastUpsert_mem _ _ _ hl⟩

/-- Witness of C5: a carrier whose only upsert of the status-code key carries
"teapot" changes the recorded value, and holds an upsert of that key. -/
theorem end_tags_witness :
    (recordedTags sampleTracker.ctx
        (Mutator.Upsert StatusCode (Itoa (finalStatus (sampleContext sampleGet))) ::
          [Mutator.Upsert Path "/x", Mutator.Upsert StatusCode "teapot"])).value StatusCode ≠
      some (Itoa (finalStatus (sampleContext sampleGet))) ∧
    ∃ v, Mutator.Upsert StatusCode v ∈
      [Mutator.Upsert Path "/x", Mutator.Upsert StatusCode "teapot"] :=
  ⟨by decide,
    (end_tags sampleTracker sampleRuntime (sampleContext sampleGet)
      { t := [Mutator.Upsert Path "/x", Mutator.Upsert StatusCode "teapot"] }).2.2.2.2
      (by decide)⟩

/-- C6: when the response status is 0, `end` records status 200: the span
status is (OK, "OK"), the span attribute is 200 and the status-code tag is
"200"; for a non-zero response status the recorded status is that status and
the span status is `TraceStatus` of it and of its status text. -/
theorem end_status (t : statsTracker) (rt : Runtime) (c : Context) (tags : addedTags) :
    (c.response.Status = 0 →
      ∃ ms, t.end_ rt c tags =
        [ Event.SetStatus (FromContext t.ctx) ⟨StatusCodeOK, "OK"⟩,
          Event.AddAttributes (FromContext t.ctx)
            [Attribute.Int64Attribute StatusCodeAttribute 200],
          Event.RecordWithTags t.ctx (Mutator.Upsert StatusCode "200" :: tags.t) ms ]) ∧
    (c.response.Status ≠ 0 →
      ∃ ms, t.end_ rt c tags =
        [ Event.SetStatus (FromContext t.ctx)
            (TraceStatus c.response.Status (rt.StatusText c.response.Status)),
          Event.AddAttributes (FromContext t.ctx)
            [Attribute.Int64Attribute StatusCodeAttribute c.response.Status],
          Event.RecordWithTags t.ctx
            (Mutator.Upsert StatusCode (Itoa c.response.Status) :: tags.t) ms ]) := by
  have e := end_log t rt c tags
  constructor
  · intro h0
    have hf : finalStatus c = 200 := by simp [finalStatus, h0]
    rw [hf] at e
    exact ⟨_, e⟩
  · intro h0
    have hf : finalStatus c = c.response.Status := by simp [finalStatus, h0]
    rw [hf] at e
    exact ⟨_, e⟩

/-- Witness of C6: a response never written (status 0) is recorded as 200. -/
theorem end_status_witness :
    (sampleContext sampleGet).response.Status = 0 ∧
    ∃ ms, sampleTracker.end_ sampleRuntime (sampleContext sampleGet) { t := [] } =
      [ Event.SetStatus (FromContext sampleTracker.ctx) ⟨StatusCodeOK, "OK"⟩,
        Event.AddAttributes (FromContext sampleTracker.ctx)
          [Attribute.Int64Attribute StatusCodeAttribute 200],
        Event.RecordWithTags sampleTracker.ctx [Mutator.Upsert StatusCode "200"] ms ] :=
  ⟨rfl, (end_status sampleTracker sampleRuntime (sampleContext sampleGet) { t := [] }).1 rfl⟩

/-! ## Theorems: the middleware -/

/-- The result, the final context and the log of one call of the middleware
handler, step by step. -/
theorem middleware_log (rt : Runtime) (opts : TraceOptions) (next : HandlerFunc)
    (c : Context) :
    ∃ m : ocechoHandler,
      m = ⟨opts.IsPublicEndpoint, opts.Propagation, opts.StartOptions⟩ ∧
      handlerContext rt opts c = (m.startStats rt.startTime (m.startTrace c).1).1 ∧
      (OpenCensusMiddleware rt opts next c).err = (next (handlerContext rt opts c)).2 ∧
      (OpenCensusMiddleware rt opts next c).c = closeContext rt opts next c ∧
      (OpenCensusMiddleware rt opts next c).log =
        (m.startTrace c).2.2 ++
          ((m.startStats rt.startTime (m.startTrace c).1).2.2 ++
            (Event.Next (handlerContext rt opts c) ::
              ((match (next (handlerContext rt opts c)).2 with
                | some e => [Event.Error e]
                | none => []) ++
                ((m.startStats rt.startTime (m.startTrace c).1).2.1.end_ rt
                    (closeContext rt opts next c) { t := [] } ++
                  [Event.End (some (m.startTrace c).2.1)])))) := by
  refine ⟨_, rfl, rfl, rfl, ?_, ?_⟩
  · unfold OpenCensusMiddleware closeContext
    dsimp only
    cases hn : (next (handlerContext rt opts c)).2 <;>
      simp only [handlerContext] at hn ⊢ <;> simp [hn]
  · unfold OpenCensusMiddleware closeContext
    dsimp only
    cases hn : (next (handlerContext rt opts c)).2 <;>
      simp only [handlerContext] at hn ⊢ <;> simp [hn]

/-- The lifecycle steps of `startTrace`: one span start, of the span it
returns, and nothing else; the context it leaves on the request carries that
span. -/
theorem startTrace_phases (h : ocechoHandler) (c : Context) :
    phases (h.startTrace c).2.2 = [Phase.SpanOpen] ∧
    spansStarted (h.startTrace c).2.2 = [(h.startTrace c).2.1] ∧
    openBatches (h.startTrace c).2.2 = [] ∧
    closeBatches (h.startTrace c).2.2 = [] ∧
    spansEnded (h.startTrace c).2.2 = [] ∧
    errorsReported (h.startTrace c).2.2 = [] ∧
    handlerRuns (h.startTrace c).2.2 = [] ∧
    statusesSet (h.startTrace c).2.2 = [] ∧
    closeTags (h.startTrace c).2.2 = [] ∧
    (h.startTrace c).1.request.ctx.span = some (h.startTrace c).2.1 := by
  cases hok : (h.Propagation c.request).2 <;> cases hpub : h.IsPublicEndpoint <;>
    by_cases hb : c.request.Body = none <;> by_cases hl : c.request.ContentLength > 0 <;>
    simp [ocechoHandler.startTrace, phases, phaseOf, spansStarted, openBatches, closeBatches,
      spansEnded, errorsReported, handlerRuns, statusesSet, closeTags, StartSpan,
      StartSpanWithRemoteParent, Context.SetRequest, Request.WithContext, hok, hpub, hb, hl]

/-- The one call made by `startStats`, and the tracker it builds: its context
is the one left on the request and carries the span the request carried. -/
theorem startStats_log (h : ocechoHandler) (now : Int) (c : Context) :
    (h.startStats now c).2.2 =
      [Event.Record (h.startStats now c).1.request.ctx
        [Measurement.Int64 ServerRequestCount 1]] ∧
    (h.startStats now c).2.1.start = now ∧
    (h.startStats now c).2.1.ctx = (h.startStats now c).1.request.ctx ∧
    FromContext (h.startStats now c).2.1.ctx = c.request.ctx.span := by
  unfold ocechoHandler.startStats
  by_cases hb : c.request.Body = none <;> by_cases hl : c.request.ContentLength > 0 <;>
    simp [hb, hl, tagNew, FromContext, Context.SetRequest, Request.WithContext]

/-- C7: for every call of the middleware handler and every wrapped handler,
whatever it returns: the lifecycle steps are, in this order and once each,
span start, stats open, call of the wrapped handler, stats close, span end;
the span ended is the span started; stats open records exactly the
request-count measurement 1; the wrapped handler is called once, on the
context left by the two opens, which carries the started span; the handler
returns what that call returned; stats close runs on the context that call
left (after the error handler when it returned an error): it sets the status
of the started span from the final status of that context and records
exactly one batch, tagged with that status, holding the latency and the
response size of that context. -/
theorem middleware_lifecycle (rt : Runtime) (opts : TraceOptions) (next : HandlerFunc)
    (c : Context) :
    phases (OpenCensusMiddleware rt opts next c).log =
      [Phase.SpanOpen, Phase.StatsOpen, Phase.HandlerRun, Phase.StatsClose, Phase.SpanClose] ∧
    spansStarted (OpenCensusMiddleware rt opts next c).log =
      [(ocechoHandler.startTrace
        ⟨opts.IsPublicEndpoint, opts.Propagation, opts.StartOptions⟩ c).2.1] ∧
    spansEnded (OpenCensusMiddleware rt opts next c).log =
      [some (ocechoHandler.startTrace
        ⟨opts.IsPublicEndpoint, opts.Propagation, opts.StartOptions⟩ c).2.1] ∧
    openBatches (OpenCensusMiddleware rt opts next c).log =
      [[Measurement.Int64 ServerRequestCount 1]] ∧
    handlerRuns (OpenCensusMiddleware rt opts next c).log = [handlerContext rt opts c] ∧
    (handlerContext rt opts c).request.ctx.span =
      some (ocechoHandler.startTrace
        ⟨opts.IsPublicEndpoint, opts.Propagation, opts.StartOptions⟩ c).2.1 ∧
    (OpenCensusMiddleware rt opts next c).err = (next (handlerContext rt opts c)).2 ∧
    (OpenCensusMiddleware rt opts next c).c = closeContext rt opts next c ∧
    statusesSet (OpenCensusMiddleware rt opts next c).log =
      [(some (ocechoHandler.startTrace
          ⟨opts.IsPublicEndpoint, opts.Propagation, opts.StartOptions⟩ c).2.1,
        TraceStatus (finalStatus (closeContext rt opts next c))
          (rt.StatusText (finalStatus (closeContext rt opts next c))))] ∧
    closeTags (OpenCensusMiddleware rt opts next c).log =
      [[Mutator.Upsert StatusCode (Itoa (finalStatus (closeContext rt opts next c)))]] ∧
    (∃ ms, closeBatches (OpenCensusMiddleware rt opts next c).log = [ms] ∧
      Measurement.Float64 ServerLatency (rt.endTime - rt.startTime) Millisecond ∈ ms ∧
      Measurement.Int64 ServerResponseBytes
        (closeContext rt opts next c).response.Size ∈ ms) := by
  obtain ⟨m, hm, hhc, herr, hc, hlog⟩ := middleware_log rt opts next c
  obtain ⟨hp, hst, ho, hcl, hse, _, hhr, hss, hct, hspan⟩ := startTrace_phases m c
  obtain ⟨hrec, hstart, hctx, hfrom⟩ := startStats_log m rt.startTime (m.startTrace c).1
  rw [hspan] at hfrom
  rw [← hm]
  simp only [phases, spansStarted, spansEnded, openBatches, closeBatches, handlerRuns,
    statusesSet, closeTags] at hp ho hcl hse hst hhr hss hct
  have hclose : closeBatches (OpenCensusMiddleware rt opts next c).log =
      [ if (m.startStats rt.startTime (m.startTrace c).1).2.1.reqSize ≥ 0 then
          [ Measurement.Float64 ServerLatency (rt.endTime - rt.startTime) Millisecond,
            Measurement.Int64 ServerResponseBytes (closeContext rt opts next c).response.Size,
            Measurement.Int64 ServerRequestBytes
              (m.startStats rt.startTime (m.startTrace c).1).2.1.reqSize ]
        else
          [ Measurement.Float64 ServerLatency (rt.endTime - rt.startTime) Millisecond,
            Measurement.Int64 ServerResponseBytes
              (closeContext rt opts next c).response.Size ] ] := by
    rw [hlog, hrec, end_log, hstart]
    cases (next (handlerContext rt opts c)).2 <;>
      simp [closeBatches, List.filterMap_append, hcl]
  refine ⟨?_, ?_, ?_, ?_, ?_, ?_, herr, hc, ?_, ?_, ⟨_, hclose, ?_, ?_⟩⟩
  · rw [hlog, hrec, end_log]
    cases (next (handlerContext rt opts c)).2 <;>
      simp [phases, List.filterMap_append, hp, phaseOf]
  · rw [hlog, hrec, end_log]
    cases (next (handlerContext rt opts c)).2 <;>
      simp [spansStarted, List.filterMap_append, hst]
  · rw [hlog, hrec, end_log]
    cases (next (handlerContext rt opts c)).2 <;>
      simp [spansEnded, List.filterMap_append, hse]
  · rw [hlog, hrec, end_log]
    cases (next (handlerContext rt opts c)).2 <;>
      simp [openBatches, List.filterMap_append, ho]
  · rw [hlog, hrec, end_log]
    cases (next (handlerContext rt opts c)).2 <;>
      simp [handlerRuns, List.filterMap_append, hhr]
  · rw [hhc, ← hctx]
    exact hfrom
  · rw [hlog, hrec, end_log, hfrom]
    cases (next (handlerContext rt opts c)).2 <;>
      simp [statusesSet, List.filterMap_append, hss]
  · rw [hlog, hrec, end_log]
    cases (next (handlerContext rt opts c)).2 <;>
      simp [closeTags, List.filterMap_append, hct]
  · by_cases hs : (m.startStats rt.startTime (m.startTrace c).1).2.1.reqSize ≥ 0 <;> simp [hs]
  · by_cases hs : (m.startStats rt.startTime (m.startTrace c).1).2.1.reqSize ≥ 0 <;> simp [hs]

/-- C8: the middleware handler returns exactly what the wrapped handler
returned for the context it was run on, and calls the error-reporting path
of the framework exactly once, with that error, when the wrapped handler
returned an error, and not at all when it returned nil. -/
theorem middleware_error_passthrough (rt : Runtime) (opts : TraceOptions) (next : HandlerFunc)
    (c : Context) :
    (OpenCensusMiddleware rt opts next c).err =
      (next ((ocechoHandler.startStats
        ⟨opts.IsPublicEndpoint, opts.Propagation, opts.StartOptions⟩ rt.startTime
        (ocechoHandler.startTrace
          ⟨opts.IsPublicEndpoint, opts.Propagation, opts.StartOptions⟩ c).1).1)).2 ∧
    errorsReported (OpenCensusMiddleware rt opts next c).log =
      (match (OpenCensusMiddleware rt opts next c).err with
        | some e => [e]
        | none => []) ∧
    ((errorsReported (OpenCensusMiddleware rt opts next c).log).length = 1 ↔
      (OpenCensusMiddleware rt opts next c).err ≠ none) := by
  obtain ⟨m, hm, hhc, herr, _, hlog⟩ := middleware_log rt opts next c
  obtain ⟨_, _, _, _, _, her, _, _, _, _⟩ := startTrace_phases m c
  obtain ⟨hrec, _, _, _⟩ := startStats_log m rt.startTime (m.startTrace c).1
  simp only [errorsReported] at her
  have hrep : errorsReported (OpenCensusMiddleware rt opts next c).log =
      (match (OpenCensusMiddleware rt opts next c).err with
        | some e => [e]
        | none => []) := by
    rw [herr, hlog, hrec, end_log]
    cases (next (handlerContext rt opts c)).2 <;>
      simp [errorsReported, List.filterMap_append, her]
  refine ⟨?_, hrep, ?_⟩
  · rw [herr, hhc, hm]
  · rw [hrep]
    cases (OpenCensusMiddleware rt opts next c).err <;> simp

/-- The sample handler that fails: the error is returned and reported once. -/
theorem middleware_sample_failure :
    (OpenCensusMiddleware sampleRuntime sampleOptions sampleNextFail
      (sampleContext sampleGet)).err = some "boom" ∧
    errorsReported (OpenCensusMiddleware sampleRuntime sampleOptions sampleNextFail
      (sampleContext sampleGet)).log = ["boom"] ∧
    phases (OpenCensusMiddleware sampleRuntime sampleOptions sampleNextFail
      (sampleContext sampleGet)).log =
      [Phase.SpanOpen, Phase.StatsOpen, Phase.HandlerRun, Phase.StatsClose, Phase.SpanClose] := by
  decide

end Ocecho
